import Mathlib

/-!
Verification of the dot1x applier core (dot1x_applier.py): dialect
selection from the detected switch model, interface classification into
uplink / access / excluded groups, template-identity selection, the
rendered per-switch artifact, and the verification stage data flow.

Strings coming from device output (the hardware identifier and the model
token) are embedded as `List Char`, so that the Python operations
`split("-")`, indexing, and substring membership map to `List.splitOn`,
`List.get?` / `getElem?`, and `List.IsInfix`. Inventory-level names
(interface names, VLAN ids, regions, rendered configuration text) are
embedded as `String`.
-/

namespace Dot1x

/-- The two IBNS configuration dialects. In the source the dialect is the
string stored in `task.host['ibns_ver']` at lines 119 and 123. -/
inductive Dialect
  | IBNS_V1
  | IBNS_V2
deriving DecidableEq, Repr

/-- The `ibns_ver` string stored by `get_info` (lines 119 and 123):
`"v1"` for IBNS version 1, `"v2"` for IBNS version 2. -/
def ibns_ver : Dialect → String
  | Dialect.IBNS_V1 => "v1"
  | Dialect.IBNS_V2 => "v2"

/-- Model-token extraction from `get_info` (lines 94-96):
`sw_model = hardware[0].split("-")`, then `sw_model[1]` is stored as the
switch model. `none` models the Python `IndexError` raised when the
hardware identifier has fewer than two hyphen-separated tokens, which
fails the info-gathering task for that switch. -/
def sw_model (hardware : List Char) : Option (List Char) :=
  (hardware.splitOn '-')[1]?

/-- Dialect choice from `get_info` (lines 117-124): if the stored model
token contains the substring `"3750"` the switch uses IBNS version 1,
otherwise IBNS version 2. The Python test `"3750" in sw_model` is the
infix relation on the character list. -/
def select_dialect (m : List Char) : Dialect :=
  if "3750".toList <:+: m then Dialect.IBNS_V1 else Dialect.IBNS_V2

/-- The composite behaviour of `get_info` on the hardware identifier:
extract the second hyphen-delimited token (lines 94-96), then select the
dialect from that token alone (lines 117-124). `none` models the
`IndexError` path, on which no dialect is ever selected. -/
def get_info_dialect (hardware : List Char) : Option Dialect :=
  (sw_model hardware).map select_dialect

/-- One parsed interface record, as consumed by the classification loop
in `ibns_intf` (lines 153-162). Only the two fields the loop reads are
modelled: the interface name (`intf['interface']`) and the configured
access VLAN (`intf['access_vlan']`). -/
structure Intf where
  interface : String
  access_vlan : String
deriving DecidableEq, Repr

/-- The classification loop of `ibns_intf` (lines 149-162). For each
record in input order: if its name is in `uplinks` it is appended to the
uplink list; otherwise, if its name is not in `excluded_intf` and its
access VLAN is in `vlans`, it is appended to the access list. The third
component records the interfaces taken by the remaining branch (name not
in `uplinks`, name in `excluded_intf`): the source appends these to no
list, dropping them; they are collected here so that the excluded group
of the specification can be spoken about. The loop never reads
`ibns_ver`: classification is identical for both dialects. -/
def ibns_intf_classify (uplinks excluded_intf vlans : List String) :
    List Intf → List Intf × List Intf × List Intf
  | [] => ([], [], [])
  | intf :: rest =>
    let g := ibns_intf_classify uplinks excluded_intf vlans rest
    if intf.interface ∈ uplinks then
      (intf :: g.1, g.2.1, g.2.2)
    else if intf.interface ∉ excluded_intf then
      (if intf.access_vlan ∈ vlans then (g.1, intf :: g.2.1, g.2.2) else g)
    else
      (g.1, g.2.1, intf :: g.2.2)

/-- The access group that claim C2 predicts under IBNS version 1,
written from the words of the specification: the input sequence minus
interfaces named in `uplinks` minus interfaces named in `excluded_intf`,
with VLAN membership ignored. Kept separate from the source-derived
`ibns_intf_classify` so the two can be compared. -/
def v1_access_spec (uplinks excluded_intf : List String) (l : List Intf) :
    List Intf :=
  l.filter fun i => decide (i.interface ∉ uplinks ∧ i.interface ∉ excluded_intf)

/-- Global template identity from `ibns_global` (line 136):
the Jinja2 file name is interpolated from the dialect string and the
region, as in IBNS{ver}_{region}_global.j2. -/
def ibns_global_template (d : Dialect) (region : String) : String :=
  "IBNS" ++ ibns_ver d ++ "_" ++ region ++ "_global.j2"

/-- Uplink interface template identity from `ibns_intf` (line 169): a
fixed literal, interpolating neither the dialect nor the region. The two
arguments are the inputs available to template selection; the body shows
that neither is consulted. -/
def ibns_uplink_intf_template (d : Dialect) (region : String) : String :=
  "IBNS_uplink_intf.j2"

/-- Access interface template identity from `ibns_intf` (line 178):
interpolates the dialect string only, as in IBNS{ver}_access_intf.j2.
The region argument is available but not consulted. -/
def ibns_access_intf_template (d : Dialect) (region : String) : String :=
  "IBNS" ++ ibns_ver d ++ "_access_intf.j2"

/-- Return value of `ibns_intf` (line 184): the rendered uplink
interface configuration concatenated with the rendered access interface
configuration, with no separator between them. -/
def ibns_intf_result (uplink_intf_cfg access_intf_cfg : String) : String :=
  uplink_intf_cfg ++ access_intf_cfg

/-- The per-switch artifact `cfg_out` built by `render_configs`
(lines 190-194): the global configuration, one newline, then the
interface configuration returned by `ibns_intf`. This is the exact text
written to the per-switch configuration file at lines 199-200. -/
def render_configs (global_cfg uplink_intf_cfg access_intf_cfg : String) :
    String :=
  global_cfg ++ "\n" ++ ibns_intf_result uplink_intf_cfg access_intf_cfg

/-- Observable output of `verify_dot1x` for one switch (lines 222-241):
the printed status banner and the content written to the per-switch
verification report file. -/
structure VerifyOut where
  status_banner : String
  report : String
deriving DecidableEq, Repr

/-- Data flow of `verify_dot1x` (lines 222-241). The TTP parse of the
raw `show dot1x all` output is the external parsing collaborator; its
result, the parsed status string, is taken as an input here. The stage
prints a banner embedding the parsed status (line 237) and writes the
raw command output, unchanged, as the report (lines 239-240). No value
is compared with any expected status anywhere in the function. -/
def verify_dot1x (host dot1x_status sh_dot1x_result : String) : VerifyOut :=
  { status_banner := "*** " ++ host ++ " dot1x status: " ++ dot1x_status ++ " ***"
  , report := sh_dot1x_result }

/-- Concrete interface record used by concrete-input theorems below. -/
def gi1 : Intf := { interface := "Gi1/0/1", access_vlan := "10" }

/-- Concrete uplink-named interface record used by concrete-input
theorems below. -/
def gi48 : Intf := { interface := "Gi1/0/48", access_vlan := "10" }

/- ------------------------------------------------------------------ -/
/- Helper lemmas shared by the claim theorems.                        -/
/- ------------------------------------------------------------------ -/

/-- String concatenation acts as list concatenation on the underlying
character data. -/
theorem string_data_append (a b : String) :
    (a ++ b).data = a.data ++ b.data := rfl

/-- Closed-form description of the classification loop: the three groups
are the filters of the input list by the three branch conditions of
lines 156-162, each in input order. -/
theorem ibns_intf_classify_eq_filter (u e v : List String) (l : List Intf) :
    ibns_intf_classify u e v l =
      (l.filter fun i => decide (i.interface ∈ u),
       l.filter fun i =>
         decide (i.interface ∉ u ∧ i.interface ∉ e ∧ i.access_vlan ∈ v),
       l.filter fun i => decide (i.interface ∉ u ∧ i.interface ∈ e)) := by
  induction l with
  | nil => rfl
  | cons intf rest ih =>
    by_cases hu : intf.interface ∈ u
    · simp [ibns_intf_classify, ih, hu, List.filter_cons]
    · by_cases he : intf.interface ∈ e
      · simp [ibns_intf_classify, ih, hu, he, List.filter_cons]
      · by_cases hv : intf.access_vlan ∈ v
        · simp [ibns_intf_classify, ih, hu, he, hv, List.filter_cons]
        · simp [ibns_intf_classify, ih, hu, he, hv, List.filter_cons]

/-- Membership in the uplink group: exactly the input records whose name
is in the uplink name list. -/
theorem mem_uplink_group (u e v : List String) (l : List Intf) (i : Intf) :
    i ∈ (ibns_intf_classify u e v l).1 ↔ i ∈ l ∧ i.interface ∈ u := by
  simp [ibns_intf_classify_eq_filter, List.mem_filter]

/-- Membership in the access group: exactly the input records whose name
is in neither name list and whose access VLAN is a target VLAN. -/
theorem mem_access_group (u e v : List String) (l : List Intf) (i : Intf) :
    i ∈ (ibns_intf_classify u e v l).2.1 ↔
      i ∈ l ∧ i.interface ∉ u ∧ i.interface ∉ e ∧ i.access_vlan ∈ v := by
  simp [ibns_intf_classify_eq_filter, List.mem_filter]

/-- Membership in the excluded group: exactly the input records whose
name is not an uplink name but is an excluded name. -/
theorem mem_excluded_group (u e v : List String) (l : List Intf) (i : Intf) :
    i ∈ (ibns_intf_classify u e v l).2.2 ↔
      i ∈ l ∧ i.interface ∉ u ∧ i.interface ∈ e := by
  simp [ibns_intf_classify_eq_filter, List.mem_filter]

/-- Left-associated closed form of the character data of the global
template identity: version-dependent prefix, then the region, then the
fixed suffix. -/
theorem ibns_global_template_data (d : Dialect) (r : String) :
    (ibns_global_template d r).data =
      ("IBNS" ++ ibns_ver d ++ "_").data ++ r.data ++ "_global.j2".toList := by
  cases d <;> rfl

/- ------------------------------------------------------------------ -/
/- Claim theorems.                                                    -/
/- ------------------------------------------------------------------ -/

/-- Claim C1: for every non-empty model string, dialect selection
returns IBNS version 1 exactly when the model contains the substring
"3750", returns IBNS version 2 exactly when it does not, and always
returns one of the two dialects, so there is no error path. -/
theorem select_dialect_iff_3750 (m : List Char) (hm : m ≠ []) :
    (select_dialect m = Dialect.IBNS_V1 ↔ "3750".toList <:+: m) ∧
    (select_dialect m = Dialect.IBNS_V2 ↔ ¬ "3750".toList <:+: m) ∧
    (select_dialect m = Dialect.IBNS_V1 ∨ select_dialect m = Dialect.IBNS_V2) := by
  by_cases h : "3750".toList <:+: m
  · refine ⟨⟨fun _ => h, fun _ => ?_⟩, ⟨fun hv2 => ?_, fun hn => absurd h hn⟩,
      Or.inl ?_⟩
    · simp [select_dialect]
      exact h
    · exact absurd hv2 (by simp [select_dialect]; exact h)
    · simp [select_dialect]
      exact h
  · refine ⟨⟨fun hv1 => ?_, fun hi => absurd hi h⟩, ⟨fun _ => h, fun _ => ?_⟩,
      Or.inr ?_⟩
    · exact absurd hv1 (by simp [select_dialect]; exact h)
    · simp [select_dialect]
      exact h
    · simp [select_dialect]
      exact h

/-- Concrete instance of claim C1: the model token of a Catalyst 3750X
selects IBNS version 1 and the model token of a Catalyst 9300 selects
IBNS version 2. -/
theorem select_dialect_iff_3750_witness :
    select_dialect "C3750X".toList = Dialect.IBNS_V1 ∧
    select_dialect "C9300".toList = Dialect.IBNS_V2 :=
  ⟨(select_dialect_iff_3750 "C3750X".toList (by decide)).1.mpr (by decide),
   (select_dialect_iff_3750 "C9300".toList (by decide)).2.1.mpr (by decide)⟩

/-- Claim C10: dialect selection inspects only the second
hyphen-delimited token of the hardware identifier. A hardware identifier
with no hyphen makes the token extraction fail, so the info-gathering
stage fails before any dialect is selected; and when the second token
does not contain "3750", the dialect is IBNS version 2 regardless of
what the other tokens contain. -/
theorem get_info_second_token_only :
    (∀ hw : List Char, '-' ∉ hw → get_info_dialect hw = none) ∧
    (∀ hw m, sw_model hw = some m → ¬ "3750".toList <:+: m →
      get_info_dialect hw = some Dialect.IBNS_V2) := by
  constructor
  · intro hw hdash
    have hsplit : hw.splitOn '-' = [hw] := by
      unfold List.splitOn
      exact List.splitOnP_eq_single _ _ (by
        intro x hx
        simp only [beq_iff_eq]
        intro heq
        exact hdash (heq ▸ hx))
    unfold get_info_dialect sw_model
    rw [hsplit]
    rfl
  · intro hw m hsm h3750
    unfold get_info_dialect
    rw [hsm]
    simp only [Option.map_some', Option.some.injEq]
    simp [select_dialect, h3750]
    exact h3750

/-- Concrete instance of claim C10: the hyphen-free identifier "C3750X"
fails token extraction even though it contains "3750", and the
identifier "WS3750-X-48", whose first token contains "3750" but whose
second token is "X", selects IBNS version 2. -/
theorem get_info_second_token_only_witness :
    get_info_dialect "C3750X".toList = none ∧
    get_info_dialect "WS3750-X-48".toList = some Dialect.IBNS_V2 :=
  ⟨get_info_second_token_only.1 "C3750X".toList (by decide),
   get_info_second_token_only.2 "WS3750-X-48".toList "X".toList
     (by decide) (by decide)⟩

/-- Claim C2 counterexample: under the code, VLAN membership is
consulted for every dialect, IBNS version 1 included. With no uplink
and no excluded names, one interface on VLAN "10" with target VLAN list
["20"] is dropped from the access group, while the claim predicts the
access group is the full input minus uplinks minus excluded names. -/
theorem v1_access_group_vlan_consulted :
    (ibns_intf_classify [] [] ["20"] [gi1]).2.1 ≠
      v1_access_spec [] [] [gi1] := by decide

/-- Claim C2 as amended: for every interface sequence and every dialect
(the classification loop never reads the dialect), the access group is
the input sequence minus interfaces named in the uplink list, minus
interfaces named in the excluded list, restricted to interfaces whose
access VLAN is in the target VLAN list, in input order. -/
theorem access_group_characterization (u e v : List String) (l : List Intf) :
    (ibns_intf_classify u e v l).2.1 =
      l.filter fun i =>
        decide (i.interface ∉ u ∧ i.interface ∉ e ∧ i.access_vlan ∈ v) := by
  rw [ibns_intf_classify_eq_filter]

/-- Claim C3: every member of the access group has its access VLAN in
the target VLAN list, and an interface whose access VLAN is not a
target VLAN and whose name is in neither the uplink list nor the
excluded list appears in none of the three groups. The classification
loop never reads the dialect, so this holds under IBNS version 2 in
particular. -/
theorem access_group_vlan_membership (u e v : List String) (l : List Intf)
    (i : Intf) :
    (i ∈ (ibns_intf_classify u e v l).2.1 → i.access_vlan ∈ v) ∧
    (i.access_vlan ∉ v → i.interface ∉ u → i.interface ∉ e →
      ¬ (i ∈ (ibns_intf_classify u e v l).1 ∨
         i ∈ (ibns_intf_classify u e v l).2.1 ∨
         i ∈ (ibns_intf_classify u e v l).2.2)) := by
  constructor
  · intro hmem
    exact ((mem_access_group u e v l i).1 hmem).2.2.2
  · intro hv hu he hmem
    rcases hmem with h | h | h
    · exact hu ((mem_uplink_group u e v l i).1 h).2
    · exact hv ((mem_access_group u e v l i).1 h).2.2.2
    · exact he ((mem_excluded_group u e v l i).1 h).2.2

/-- Concrete instance of claim C3: with target VLAN list ["10"] the
interface Gi1/0/1 on VLAN "10" is an access member, and with target
VLAN list ["20"] the same non-uplink, non-excluded interface appears in
no group at all. -/
theorem access_group_vlan_membership_witness :
    gi1.access_vlan ∈ (["10"] : List String) ∧
    ¬ (gi1 ∈ (ibns_intf_classify ["Gi1/0/48"] ["Gi1/0/2"] ["20"] [gi1]).1 ∨
       gi1 ∈ (ibns_intf_classify ["Gi1/0/48"] ["Gi1/0/2"] ["20"] [gi1]).2.1 ∨
       gi1 ∈ (ibns_intf_classify ["Gi1/0/48"] ["Gi1/0/2"] ["20"] [gi1]).2.2) :=
  ⟨(access_group_vlan_membership ["Gi1/0/48"] ["Gi1/0/2"] ["10"] [gi1] gi1).1
      (by decide),
   (access_group_vlan_membership ["Gi1/0/48"] ["Gi1/0/2"] ["20"] [gi1] gi1).2
      (by decide) (by decide) (by decide)⟩

/-- Claim C4: an interface whose name is in both the uplink list and the
excluded list lands in the uplink group and in no other group: the
uplink test is the first branch of the loop, ahead of the exclusion
test and the VLAN test, and the loop never reads the dialect, so this
holds under both dialects. -/
theorem uplink_precedence (u e v : List String) (l : List Intf) (i : Intf)
    (hl : i ∈ l) (hu : i.interface ∈ u) (he : i.interface ∈ e) :
    i ∈ (ibns_intf_classify u e v l).1 ∧
    i ∉ (ibns_intf_classify u e v l).2.1 ∧
    i ∉ (ibns_intf_classify u e v l).2.2 := by
  refine ⟨(mem_uplink_group u e v l i).2 ⟨hl, hu⟩, ?_, ?_⟩
  · intro h
    exact ((mem_access_group u e v l i).1 h).2.1 hu
  · intro h
    exact ((mem_excluded_group u e v l i).1 h).2.1 hu

/-- Concrete instance of claim C4: Gi1/0/48, named in both the uplink
list and the excluded list, and with an access VLAN outside the target
VLAN list, is classified as an uplink. -/
theorem uplink_precedence_witness :
    gi48 ∈ (ibns_intf_classify ["Gi1/0/48"] ["Gi1/0/48"] ["20"] [gi48]).1 :=
  (uplink_precedence ["Gi1/0/48"] ["Gi1/0/48"] ["20"] [gi48] gi48
    (by decide) (by decide) (by decide)).1

/-- Claim C5: the three groups produced by the classification loop are
pairwise disjoint: no interface record is a member of more than one
group. -/
theorem classify_groups_pairwise_disjoint (u e v : List String)
    (l : List Intf) (i : Intf) :
    (i ∈ (ibns_intf_classify u e v l).1 →
      i ∉ (ibns_intf_classify u e v l).2.1) ∧
    (i ∈ (ibns_intf_classify u e v l).1 →
      i ∉ (ibns_intf_classify u e v l).2.2) ∧
    (i ∈ (ibns_intf_classify u e v l).2.1 →
      i ∉ (ibns_intf_classify u e v l).2.2) := by
  refine ⟨fun h1 h2 => ?_, fun h1 h2 => ?_, fun h1 h2 => ?_⟩
  · exact ((mem_access_group u e v l i).1 h2).2.1
      ((mem_uplink_group u e v l i).1 h1).2
  · exact ((mem_excluded_group u e v l i).1 h2).2.1
      ((mem_uplink_group u e v l i).1 h1).2
  · exact ((mem_access_group u e v l i).1 h1).2.2.1
      ((mem_excluded_group u e v l i).1 h2).2.2

/-- Concrete instance of claim C5: the uplink member Gi1/0/48 is not in
the access group of the same classification. -/
theorem classify_groups_pairwise_disjoint_witness :
    gi48 ∉ (ibns_intf_classify ["Gi1/0/48"] [] ["10"] [gi48]).2.1 :=
  (classify_groups_pairwise_disjoint ["Gi1/0/48"] [] ["10"] [gi48] gi48).1
    (by decide)

/-- Claim C6: template identities are pure functions of the dialect and
the region. The global template determines the dialect and the region
that produced it; the access template ignores the region but separates
the dialects; the uplink template is one fixed identity for every
dialect and region. -/
theorem template_identity (d d2 : Dialect) (r r2 : String) :
    (ibns_global_template d r = ibns_global_template d2 r → d = d2) ∧
    (ibns_global_template d r = ibns_global_template d r2 → r = r2) ∧
    (ibns_access_intf_template d r = ibns_access_intf_template d r2) ∧
    (ibns_access_intf_template Dialect.IBNS_V1 r ≠
      ibns_access_intf_template Dialect.IBNS_V2 r2) ∧
    (ibns_uplink_intf_template d r = ibns_uplink_intf_template d2 r2) := by
  refine ⟨?_, ?_, rfl, ?_, rfl⟩
  case refine_3 =>
    intro h
    have h2 : ("IBNS" ++ "v1" ++ "_access_intf.j2" : String) =
        "IBNS" ++ "v2" ++ "_access_intf.j2" := h
    exact absurd h2 (by decide)
  · intro h
    have hd := congrArg String.data h
    rw [ibns_global_template_data, ibns_global_template_data] at hd
    have hp := List.append_cancel_right (List.append_cancel_right hd)
    cases d <;> cases d2 <;> first | rfl | exact absurd hp (by decide)
  · intro h
    have hd := congrArg String.data h
    rw [ibns_global_template_data, ibns_global_template_data] at hd
    exact String.ext (List.append_cancel_left (List.append_cancel_right hd))

/-- Concrete instance of claim C6: the injectivity hypotheses are
satisfiable, instantiated at dialect IBNS version 1 and region "east". -/
theorem template_identity_witness :
    Dialect.IBNS_V1 = Dialect.IBNS_V1 ∧ ("east" : String) = "east" :=
  ⟨(template_identity Dialect.IBNS_V1 Dialect.IBNS_V1 "east" "west").1 rfl,
   (template_identity Dialect.IBNS_V1 Dialect.IBNS_V2 "east" "east").2.1 rfl⟩

/-- Claim C7: the per-switch artifact is the global configuration, then
the uplink interface configuration, then the access interface
configuration, with exactly one newline character inserted between the
global section and the interface sections and nothing inserted between
the uplink and access sections. -/
theorem render_configs_concat (global_cfg uplink_intf_cfg access_intf_cfg :
    String) :
    (render_configs global_cfg uplink_intf_cfg access_intf_cfg).data =
      global_cfg.data ++
        '\n' :: (uplink_intf_cfg.data ++ access_intf_cfg.data) := by
  have hnl : ("\n" : String).data = ['\n'] := rfl
  simp [render_configs, ibns_intf_result, string_data_append, hnl]

/-- Claim C8 counterexample: on an empty interface inventory the
classification loop does not fail; it returns three empty groups and
the pipeline proceeds to rendering. Shown at concrete uplink, excluded
and VLAN name lists. -/
theorem classify_empty_inventory_returns_groups :
    ibns_intf_classify ["Gi1/0/48"] ["Gi1/0/2"] ["10"] [] = ([], [], []) :=
  rfl

/-- Claim C8 as amended: classification has no error path; an empty
interface inventory produces three empty groups for every choice of
uplink, excluded and target VLAN name lists, and is handed on to
rendering rather than reported as a fatal stage error. -/
theorem classify_empty_inventory (u e v : List String) :
    ibns_intf_classify u e v [] = ([], [], []) := rfl

/-- Claim C9 counterexample: for a device reporting status "disabled",
the verification stage writes exactly the raw command output as the
report, and that report is identical to the one written when the
parsed status is "enabled": no comparison with "enabled" happens and no
warning is recorded on mismatch. -/
theorem verify_dot1x_disabled_no_warning :
    (verify_dot1x "sw1" "disabled"
        "Sysauthcontrol              disabled").report =
      "Sysauthcontrol              disabled" ∧
    (verify_dot1x "sw1" "disabled"
        "Sysauthcontrol              disabled").report =
      (verify_dot1x "sw1" "enabled"
        "Sysauthcontrol              disabled").report :=
  ⟨rfl, rfl⟩

/-- Claim C9 as amended: the verification stage prints a banner
embedding the parsed status and writes the raw command output,
unchanged, as the per-switch report; the report does not depend on the
parsed status at all, so no status is compared with "enabled" and no
warning is recorded. -/
theorem verify_dot1x_advisory (host status status2 raw : String) :
    (verify_dot1x host status raw).report = raw ∧
    (verify_dot1x host status raw).report =
      (verify_dot1x host status2 raw).report ∧
    (verify_dot1x host status raw).status_banner =
      "*** " ++ host ++ " dot1x status: " ++ status ++ " ***" :=
  ⟨rfl, rfl, rfl⟩

end Dot1x
